import Mathlib

/-!
Verification of `invokeai/backend/util/devices.py`: device selection,
precision selection, dtype resolution, autocast-context selection and
device normalization, embedded shallowly.  The torch runtime surface the
file consults (availability probes, hardware-name lookup, current device
index) is abstracted as an explicit `Runtime` record, and the global
configuration as a `Config` record passed to each function.
-/

namespace Devices

/-- Modelled from the spec: `PRECISION` is imported from
`invokeai.app.services.config.config_default` (not part of the supplied
sources); the spec fixes its values as the storage modes
float32 / float16 / bfloat16 plus the input-only aliases auto / autocast. -/
inductive PRECISION where
  | auto
  | autocast
  | float32
  | float16
  | bfloat16
deriving DecidableEq, Repr

/-- A `torch.device`: a backend type tag and an optional index. -/
structure TorchDevice where
  type : String
  index : Option Nat
deriving DecidableEq, Repr

/-- The dtypes `torch_dtype` can produce. -/
inductive TorchDtype where
  | float16
  | bfloat16
  | float32
deriving DecidableEq, Repr

/-- The two context factories `choose_autocast` can return:
`torch.autocast` or `contextlib.nullcontext`. -/
inductive AutocastCtx where
  | autocast
  | nullcontext
deriving DecidableEq, Repr

/-- The torch runtime facts the file consults. -/
structure Runtime where
  cuda_is_available : Bool
  mps_backend_exists : Bool
  mps_is_available : Bool
  cuda_get_device_name : TorchDevice → String
  cuda_current_device : Nat

/-- The global configuration read via `get_config()`. -/
structure Config where
  device : String
  precision : PRECISION

/-- Source constant `CPU_DEVICE = torch.device("cpu")`. -/
def CPU_DEVICE : TorchDevice := ⟨"cpu", none⟩

/-- Source constant `CUDA_DEVICE = torch.device("cuda")`. -/
def CUDA_DEVICE : TorchDevice := ⟨"cuda", none⟩

/-- Source constant `MPS_DEVICE = torch.device("mps")`. -/
def MPS_DEVICE : TorchDevice := ⟨"mps", none⟩

/-- Does `pat` match at the head of `l`? -/
def charsMatchAt : List Char → List Char → Bool
  | [], _ => true
  | _ :: _, [] => false
  | a :: as, b :: bs => a == b && charsMatchAt as bs

/-- Does `pat` occur contiguously anywhere in `l`?  (Python `pat in s`.) -/
def charsContain (pat : List Char) : List Char → Bool
  | [] => charsMatchAt pat []
  | b :: bs => charsMatchAt pat (b :: bs) || charsContain pat bs

/-- Python substring test `pat in hay`. -/
def strContains (hay pat : String) : Bool :=
  charsContain pat.toList hay.toList

/-- Python `str.upper()` on the ASCII backend tags this file handles. -/
def strUpper (s : String) : String :=
  String.mk (s.toList.map Char.toUpper)

/-- Split a character list at the first colon, when one is present. -/
def splitAtColon : List Char → List Char × Option (List Char)
  | [] => ([], none)
  | c :: cs =>
      if c = ':' then ([], some cs)
      else
        let r := splitAtColon cs
        (c :: r.1, r.2)

/-- Parse a character list as a decimal natural number. -/
def charsToNat : List Char → Option Nat
  | [] => none
  | cs =>
      if cs.all Char.isDigit then
        some (cs.foldl (fun n c => 10 * n + (c.toNat - 48)) 0)
      else none

/-- Model of `torch.device(s)` on a string: parse `"type"` or `"type:index"`;
`none` models the `RuntimeError` torch raises on a malformed string. -/
def torch_device_of_string (s : String) : Option TorchDevice :=
  match splitAtColon s.toList with
  | (t, none) => if t = [] then none else some ⟨String.mk t, none⟩
  | (t, some i) =>
      if t = [] then none
      else (charsToNat i).map (fun n => ⟨String.mk t, some n⟩)

/-- Embedding of `choose_torch_device`: with `device=auto`, probe CUDA then MPS and
fall back to CPU; with an explicit string, parse it without probing. -/
def choose_torch_device (rt : Runtime) (cfg : Config) : Option TorchDevice :=
  if cfg.device = "auto" then
    if rt.cuda_is_available then some ⟨"cuda", none⟩
    else if rt.mps_backend_exists && rt.mps_is_available then some ⟨"mps", none⟩
    else some CPU_DEVICE
  else
    torch_device_of_string cfg.device

/-- Embedding of `get_torch_device_name`: hardware product name for a CUDA device,
otherwise the uppercased backend tag, for the device chosen by
`choose_torch_device`. -/
def get_torch_device_name (rt : Runtime) (cfg : Config) : Option String := do
  let device ← choose_torch_device rt cfg
  pure (if device.type = "cuda" then rt.cuda_get_device_name device
        else strUpper device.type)

/-- Embedding of `choose_precision`: the decision table over device type, hardware
name and the configured precision preference. -/
def choose_precision (rt : Runtime) (cfg : Config) (device : TorchDevice) :
    PRECISION :=
  if device.type = "cuda" then
    let device_name := rt.cuda_get_device_name device
    if strContains device_name "GeForce GTX 1660"
        || strContains device_name "GeForce GTX 1650" then
      PRECISION.float32
    else if cfg.precision = PRECISION.auto ∨ cfg.precision = PRECISION.autocast then
      PRECISION.float16
    else
      cfg.precision
  else if device.type = "mps" then
    if cfg.precision = PRECISION.auto ∨ cfg.precision = PRECISION.autocast then
      PRECISION.float16
    else
      cfg.precision
  else
    PRECISION.float32

/-- Embedding of `torch_dtype`: default the device from `choose_torch_device`, then
map the chosen precision to a storage dtype. -/
def torch_dtype (rt : Runtime) (cfg : Config) (device : Option TorchDevice) :
    Option TorchDtype := do
  let d ← match device with
    | some d => pure d
    | none => choose_torch_device rt cfg
  let precision := choose_precision rt cfg d
  if precision = PRECISION.float16 then pure TorchDtype.float16
  else if precision = PRECISION.bfloat16 then pure TorchDtype.bfloat16
  else pure TorchDtype.float32

/-- Embedding of `choose_autocast`: `torch.autocast` for `autocast`/`float16`,
`nullcontext` otherwise. -/
def choose_autocast (precision : PRECISION) : AutocastCtx :=
  if precision = PRECISION.autocast ∨ precision = PRECISION.float16 then
    AutocastCtx.autocast
  else
    AutocastCtx.nullcontext

/-- Argument type of `normalize_device`: `Union[str, torch.device]`. -/
inductive StrOrDevice where
  | str (s : String)
  | dev (d : TorchDevice)
deriving DecidableEq, Repr

/-- Model of `torch.device(x)` on the union: a device is returned as is, a
string is parsed. -/
def torch_device_coerce : StrOrDevice → Option TorchDevice
  | StrOrDevice.str s => torch_device_of_string s
  | StrOrDevice.dev d => some d

/-- Embedding of `normalize_device`: an index-less CUDA device gains the runtime's
current device index; everything else is returned unchanged. -/
def normalize_device (rt : Runtime) (x : StrOrDevice) : Option TorchDevice := do
  let device ← torch_device_coerce x
  let device :=
    if device.index = none then
      if device.type = "cuda" then
        TorchDevice.mk device.type (some rt.cuda_current_device)
      else device
    else device
  pure device

/-- Concrete runtime with no accelerator available. -/
def rtNone : Runtime := ⟨false, false, false, fun _ => "", 0⟩

/-- Concrete runtime with CUDA available and a GTX 1660 card. -/
def rtCuda1660 : Runtime :=
  ⟨true, false, false, fun _ => "NVIDIA GeForce GTX 1660 SUPER", 0⟩

/-- Concrete runtime with CUDA available and an RTX 3090 card. -/
def rtCuda3090 : Runtime :=
  ⟨true, true, true, fun _ => "NVIDIA GeForce RTX 3090", 1⟩

/-- C1: with device preference auto, `choose_torch_device` returns the CUDA
device when the CUDA probe reports available, otherwise the MPS device when
the MPS backend exists and reports available, otherwise the CPU device; in
every case it succeeds (returns a device, never an error). -/
theorem choose_torch_device_auto (rt : Runtime) (cfg : Config)
    (h : cfg.device = "auto") :
    (rt.cuda_is_available = true →
      choose_torch_device rt cfg = some CUDA_DEVICE) ∧
    (rt.cuda_is_available = false →
      (rt.mps_backend_exists && rt.mps_is_available) = true →
      choose_torch_device rt cfg = some MPS_DEVICE) ∧
    (rt.cuda_is_available = false →
      (rt.mps_backend_exists && rt.mps_is_available) = false →
      choose_torch_device rt cfg = some CPU_DEVICE) := by
  refine ⟨fun h1 => ?_, fun h1 h2 => ?_, fun h1 h2 => ?_⟩
  · simp [choose_torch_device, h, h1, CUDA_DEVICE]
  · simp [choose_torch_device, h, h1, h2, MPS_DEVICE]
  · simp [choose_torch_device, h, h1, h2, CPU_DEVICE]

/-- Witness for C1: no accelerator available, device preference auto, the
CPU device is chosen. -/
theorem choose_torch_device_auto_witness :
    (Config.mk "auto" PRECISION.auto).device = "auto" ∧
    choose_torch_device rtNone (Config.mk "auto" PRECISION.auto) =
      some CPU_DEVICE :=
  ⟨rfl,
    (choose_torch_device_auto rtNone (Config.mk "auto" PRECISION.auto)
      rfl).2.2 rfl rfl⟩

/-- C2: with an explicit (non-auto) device preference, `choose_torch_device`
returns the device parsed from that string, and the result does not depend
on the runtime probes at all. -/
theorem choose_torch_device_explicit (rt : Runtime) (cfg : Config)
    (h : cfg.device ≠ "auto") :
    choose_torch_device rt cfg = torch_device_of_string cfg.device ∧
    ∀ rt2 : Runtime, choose_torch_device rt2 cfg = choose_torch_device rt cfg := by
  constructor
  · simp [choose_torch_device, h]
  · intro rt2
    simp [choose_torch_device, h]

/-- Witness for C2: the explicit string "cuda:1" is parsed and returned even
though no accelerator is available. -/
theorem choose_torch_device_explicit_witness :
    (Config.mk "cuda:1" PRECISION.auto).device ≠ "auto" ∧
    choose_torch_device rtNone (Config.mk "cuda:1" PRECISION.auto) =
      torch_device_of_string "cuda:1" :=
  ⟨by decide,
    (choose_torch_device_explicit rtNone (Config.mk "cuda:1" PRECISION.auto)
      (by decide)).1⟩

/-- C3: on a CUDA device whose reported hardware name contains
"GeForce GTX 1660" or "GeForce GTX 1650", `choose_precision` returns
float32 for every configured precision preference. -/
theorem choose_precision_gtx_force_float32 (rt : Runtime) (cfg : Config)
    (d : TorchDevice) (hc : d.type = "cuda")
    (hname : strContains (rt.cuda_get_device_name d) "GeForce GTX 1660" = true ∨
      strContains (rt.cuda_get_device_name d) "GeForce GTX 1650" = true) :
    choose_precision rt cfg d = PRECISION.float32 := by
  rcases hname with hname | hname <;> simp [choose_precision, hc, hname]

/-- Witness for C3: a GTX 1660 card forces float32 even with an explicit
float16 preference. -/
theorem choose_precision_gtx_witness :
    (⟨"cuda", none⟩ : TorchDevice).type = "cuda" ∧
    choose_precision rtCuda1660 (Config.mk "auto" PRECISION.float16)
      ⟨"cuda", none⟩ = PRECISION.float32 :=
  ⟨rfl,
    choose_precision_gtx_force_float32 rtCuda1660
      (Config.mk "auto" PRECISION.float16) ⟨"cuda", none⟩ rfl
      (Or.inl (by decide))⟩

/-- C4: decision table of `choose_precision` outside the limited-support
override: on CUDA (non-limited name) and on MPS, preference auto/autocast
gives float16 and an explicit preference is returned verbatim; on any other
device type the result is float32 regardless of preference. -/
theorem choose_precision_table (rt : Runtime) (cfg : Config) (d : TorchDevice)
    (hlim : d.type = "cuda" →
      strContains (rt.cuda_get_device_name d) "GeForce GTX 1660" = false ∧
      strContains (rt.cuda_get_device_name d) "GeForce GTX 1650" = false) :
    ((d.type = "cuda" ∨ d.type = "mps") →
      ((cfg.precision = PRECISION.auto ∨ cfg.precision = PRECISION.autocast) →
        choose_precision rt cfg d = PRECISION.float16) ∧
      (cfg.precision ≠ PRECISION.auto → cfg.precision ≠ PRECISION.autocast →
        choose_precision rt cfg d = cfg.precision)) ∧
    (d.type ≠ "cuda" → d.type ≠ "mps" →
      choose_precision rt cfg d = PRECISION.float32) := by
  constructor
  · rintro (hc | hm)
    · obtain ⟨h1, h2⟩ := hlim hc
      refine ⟨fun hp => ?_, fun hp1 hp2 => ?_⟩
      · simp [choose_precision, hc, h1, h2, hp]
      · simp [choose_precision, hc, h1, h2, hp1, hp2]
    · refine ⟨fun hp => ?_, fun hp1 hp2 => ?_⟩
      · simp [choose_precision, hm, hp]
      · simp [choose_precision, hm, hp1, hp2]
  · intro hc hm
    simp [choose_precision, hc, hm]

/-- Witness for C4: an RTX 3090 with preference auto gets float16. -/
theorem choose_precision_table_witness :
    choose_precision rtCuda3090 (Config.mk "auto" PRECISION.auto)
      ⟨"cuda", none⟩ = PRECISION.float16 :=
  ((choose_precision_table rtCuda3090 (Config.mk "auto" PRECISION.auto)
      ⟨"cuda", none⟩ (fun _ => ⟨by decide, by decide⟩)).1
    (Or.inl rfl)).1 (Or.inl rfl)

/-- C5: `choose_precision` is total and only ever returns one of float32,
float16, bfloat16; the aliases auto and autocast are never returned. -/
theorem choose_precision_range (rt : Runtime) (cfg : Config) (d : TorchDevice) :
    choose_precision rt cfg d = PRECISION.float32 ∨
    choose_precision rt cfg d = PRECISION.float16 ∨
    choose_precision rt cfg d = PRECISION.bfloat16 := by
  by_cases hc : d.type = "cuda"
  · by_cases hg : (strContains (rt.cuda_get_device_name d) "GeForce GTX 1660"
        || strContains (rt.cuda_get_device_name d) "GeForce GTX 1650") = true
    · left
      simp [choose_precision, hc, hg]
    · by_cases hp : cfg.precision = PRECISION.auto ∨
          cfg.precision = PRECISION.autocast
      · right; left
        simp [choose_precision, hc, hg, hp]
      · have hv : choose_precision rt cfg d = cfg.precision := by
          simp [choose_precision, hc, hg, hp]
        rw [hv]
        cases h : cfg.precision <;> simp_all
  · by_cases hm : d.type = "mps"
    · by_cases hp : cfg.precision = PRECISION.auto ∨
          cfg.precision = PRECISION.autocast
      · right; left
        simp [choose_precision, hc, hm, hp]
      · have hv : choose_precision rt cfg d = cfg.precision := by
          simp [choose_precision, hc, hm, hp]
        rw [hv]
        cases h : cfg.precision <;> simp_all
    · left
      simp [choose_precision, hc, hm]

/-- C6: `torch_dtype` maps the precision chosen for the device to a dtype
(float16 to float16, bfloat16 to bfloat16, anything else to float32), and
with no device it behaves as on the device chosen by
`choose_torch_device`. -/
theorem torch_dtype_spec (rt : Runtime) (cfg : Config) (d : TorchDevice) :
    (choose_precision rt cfg d = PRECISION.float16 →
      torch_dtype rt cfg (some d) = some TorchDtype.float16) ∧
    (choose_precision rt cfg d = PRECISION.bfloat16 →
      torch_dtype rt cfg (some d) = some TorchDtype.bfloat16) ∧
    (choose_precision rt cfg d ≠ PRECISION.float16 →
      choose_precision rt cfg d ≠ PRECISION.bfloat16 →
      torch_dtype rt cfg (some d) = some TorchDtype.float32) ∧
    torch_dtype rt cfg none =
      (choose_torch_device rt cfg).bind (fun d2 => torch_dtype rt cfg (some d2)) := by
  refine ⟨fun h => ?_, fun h => ?_, fun h1 h2 => ?_, ?_⟩
  · simp [torch_dtype, h]
  · simp [torch_dtype, h]
  · simp [torch_dtype, h1, h2]
  · cases hcd : choose_torch_device rt cfg <;> simp [torch_dtype, hcd]

/-- Witness for C6: RTX 3090 with preference auto yields the float16 dtype. -/
theorem torch_dtype_spec_witness :
    torch_dtype rtCuda3090 (Config.mk "auto" PRECISION.auto)
      (some ⟨"cuda", none⟩) = some TorchDtype.float16 :=
  (torch_dtype_spec rtCuda3090 (Config.mk "auto" PRECISION.auto)
    ⟨"cuda", none⟩).1 (by decide)

/-- C7: `choose_autocast` returns the autocast constructor exactly for the
inputs autocast and float16, and the nullcontext for every other input. -/
theorem choose_autocast_spec (p : PRECISION) :
    (choose_autocast p = AutocastCtx.autocast ↔
      (p = PRECISION.autocast ∨ p = PRECISION.float16)) ∧
    (choose_autocast p = AutocastCtx.nullcontext ↔
      ¬(p = PRECISION.autocast ∨ p = PRECISION.float16)) := by
  cases p <;> simp [choose_autocast]

/-- Witness for C7: float16 selects the autocast constructor. -/
theorem choose_autocast_spec_witness :
    choose_autocast PRECISION.float16 = AutocastCtx.autocast :=
  (choose_autocast_spec PRECISION.float16).1.mpr (Or.inr rfl)

/-- C8: `normalize_device` gives an index-less CUDA device the runtime's
current device index, leaves every non-CUDA device unchanged, and every
CUDA-typed result carries an index. -/
theorem normalize_device_spec (rt : Runtime) (d : TorchDevice) :
    (d.type = "cuda" → d.index = none →
      normalize_device rt (StrOrDevice.dev d) =
        some ⟨"cuda", some rt.cuda_current_device⟩) ∧
    (d.type ≠ "cuda" → normalize_device rt (StrOrDevice.dev d) = some d) ∧
    (∀ r : TorchDevice, normalize_device rt (StrOrDevice.dev d) = some r →
      r.type = "cuda" → r.index ≠ none) := by
  refine ⟨fun hc hi => ?_, fun hc => ?_, fun r hr hc => ?_⟩
  · simp [normalize_device, torch_device_coerce, hi, hc]
  · cases hi : d.index <;> simp [normalize_device, torch_device_coerce, hi, hc]
  · by_cases hdc : d.type = "cuda"
    · cases hi : d.index with
      | none =>
          simp [normalize_device, torch_device_coerce, hi, hdc] at hr
          simp [← hr]
      | some i =>
          simp [normalize_device, torch_device_coerce, hi] at hr
          simp [← hr, hi]
    · cases hi : d.index with
      | none =>
          simp [normalize_device, torch_device_coerce, hi, hdc] at hr
          rw [← hr] at hc
          exact absurd hc hdc
      | some i =>
          simp [normalize_device, torch_device_coerce, hi] at hr
          simp [← hr, hi]

/-- Witness for C8: an index-less CUDA device gains the current index. -/
theorem normalize_device_spec_witness :
    normalize_device rtCuda3090 (StrOrDevice.dev ⟨"cuda", none⟩) =
      some ⟨"cuda", some rtCuda3090.cuda_current_device⟩ :=
  (normalize_device_spec rtCuda3090 ⟨"cuda", none⟩).1 rfl rfl

/-- C9: `get_torch_device_name` returns the hardware product name when the
chosen device is CUDA-typed, and the uppercased backend tag otherwise. -/
theorem get_torch_device_name_spec (rt : Runtime) (cfg : Config)
    (d : TorchDevice) (h : choose_torch_device rt cfg = some d) :
    (d.type = "cuda" →
      get_torch_device_name rt cfg = some (rt.cuda_get_device_name d)) ∧
    (d.type ≠ "cuda" →
      get_torch_device_name rt cfg = some (strUpper d.type)) := by
  refine ⟨fun hc => ?_, fun hc => ?_⟩ <;>
    simp [get_torch_device_name, h, hc]

/-- Witness for C9: with no accelerator the chosen device is the CPU and
the resolver returns the uppercased tag. -/
theorem get_torch_device_name_spec_witness :
    get_torch_device_name rtNone (Config.mk "auto" PRECISION.auto) =
      some (strUpper "cpu") :=
  (get_torch_device_name_spec rtNone (Config.mk "auto" PRECISION.auto)
    CPU_DEVICE (by decide)).2 (by decide)

/-- C10: `normalize_device` is idempotent for a fixed runtime: normalizing
the result of a normalization changes nothing. -/
theorem normalize_device_idem (rt : Runtime) (x : StrOrDevice) :
    (normalize_device rt x).bind
      (fun r => normalize_device rt (StrOrDevice.dev r)) =
    normalize_device rt x := by
  cases hx : torch_device_coerce x with
  | none => simp [normalize_device, hx]
  | some d =>
      by_cases hi : d.index = none
      · by_cases hc : d.type = "cuda"
        · have h1 : normalize_device rt x =
              some ⟨d.type, some rt.cuda_current_device⟩ := by
            simp [normalize_device, hx, hi, hc]
          rw [h1]
          simp [normalize_device, torch_device_coerce]
        · cases d
          simp_all [normalize_device, torch_device_coerce]
      · cases d
        simp_all [normalize_device, torch_device_coerce]

end Devices
